import Mathlib

/-!
Verification development for the hcam-drivers control application.

Each definition below is a shallow embedding of a function of the Python
source (`hcam_drivers`); machine integers are modelled as `ℤ`/`ℕ`, Python
floats as exact rationals `ℚ` (with an explicit not-a-number sentinel where
NaN semantics matter), and code that can raise returns `Except PyErr`.
-/

/-- The Python exceptions the embedded code can raise, tagged with the
message or offending key. -/
inductive PyErr where
  | keyError : String → PyErr
  | valueError : String → PyErr
  | slideError : String → PyErr
  | driverError : String → PyErr
  | unboundLocalError : String → PyErr
  | typeError : String → PyErr
  | indexError : String → PyErr
  | vacuumGaugeError : String → PyErr
deriving DecidableEq

/-- Python `dict` lookup (`d[k]` / `d.get(k)` / `k in d`) on an association
list; keys produced by the embedded code are unique, so first-match lookup
agrees with dict semantics. -/
def dictGet {α : Type} : List (String × α) → String → Option α
  | [], _ => none
  | (k₁, v) :: rest, k => if k = k₁ then some v else dictGet rest k

/-- Whether an `Except` computation succeeded. -/
def exceptOk {ε α : Type} : Except ε α → Bool
  | .ok _ => true
  | .error _ => false

/-!
## utils/hcam.py — HardwareDisplayWidget.process_update (claim C1)

A monitoring value is either a finite float (modelled exactly as a rational)
or the not-a-number sentinel; as in numpy/IEEE, every `<` comparison against
NaN is false and `np.isfinite` is false exactly on NaN.
-/

/-- A Python float as the monitoring path uses it: NaN or a finite value. -/
inductive PyFloat where
  | nan : PyFloat
  | val : ℚ → PyFloat
deriving DecidableEq

/-- IEEE `<`: false whenever either side is NaN. -/
def PyFloat.lt : PyFloat → PyFloat → Bool
  | .val a, .val b => decide (a < b)
  | _, _ => false

/-- `np.isfinite` on the monitoring value (no infinities arise here). -/
def np_isfinite : PyFloat → Bool
  | .nan => false
  | .val _ => true

/-- `HardwareDisplayWidget.process_update` (utils/hcam.py): the value the
widget's `ok` flag takes after a `(val, errmsg)` pair is read from the
queue, given the widget's `lower_limit` and `upper_limit`. The branch
structure is the source's: the in-bounds test first, then an
`np.isfinite(val)` test (whose comment says "no error and nan returned
means checking disabled"), else false. -/
def process_update_ok (val : PyFloat) (errmsg : Option String) (lower upper : ℚ) : Bool :=
  if errmsg.isNone && PyFloat.lt val (.val upper) && PyFloat.lt (.val lower) val then
    true
  else if np_isfinite val then
    true
  else
    false

/-!
## hardware/slide.py — focal plane slide (claims C5, C6, C10)
-/

/-- Python `int()` on a float/rational: truncation toward zero. `Int`
division in Lean truncates toward zero, and `q.den > 0`. -/
def pyInt (q : ℚ) : ℤ := q.num / q.den

def MIN_MS : ℤ := 0

def MAX_MS : ℤ := 1664000

def MM_PER_MS : ℚ := 78 / 1000000

def MIN_MM : ℚ := MM_PER_MS * (MIN_MS : ℚ)

def MAX_MM : ℚ := MM_PER_MS * (MAX_MS : ℚ)

def MIN_PX : ℚ := 27602 / 10

def MAX_PX : ℚ := -11553 / 10

def MAX_STEP_TIME : ℚ := 48 / 10000

def MIN_STEP_TIME : ℚ := 25 / 10000

def STEP_TIME_ACCN : ℚ := 5 / 100000

def MS_PER_STEP : ℚ := 64

def MIN_TIMEOUT : ℚ := 5

def MAX_TIMEOUT : ℚ := 70

/-- `Slide.compute_timeout` (hardware/slide.py): estimated move time from
the microstep count, plus 2 s margin, clamped to `[MIN_TIMEOUT, MAX_TIMEOUT]`. -/
def compute_timeout (nmicrostep : ℤ) : ℚ :=
  let nstep : ℚ := ((|nmicrostep| : ℤ) : ℚ) / MS_PER_STEP
  let nacc : ℚ := (MAX_STEP_TIME - MIN_STEP_TIME) / STEP_TIME_ACCN
  let time_estimate : ℚ :=
    if nacc > nstep then (MAX_STEP_TIME - STEP_TIME_ACCN * nstep / 2) * nstep
    else (MAX_STEP_TIME + MIN_STEP_TIME) * nacc / 2 + MIN_STEP_TIME * (nstep - nacc)
  let timeout₁ : ℚ := time_estimate + 2
  let timeout₂ : ℚ := if timeout₁ > MIN_TIMEOUT then timeout₁ else MIN_TIMEOUT
  if timeout₂ < MAX_TIMEOUT then timeout₂ else MAX_TIMEOUT

/-- Python `str.upper()` on the ASCII unit codes used here. -/
def pyUpper (s : String) : String := String.mk (s.data.map Char.toUpper)

/-- Python `str.lower()` on the ASCII device names used here. -/
def pyLower (s : String) : String := String.mk (s.data.map Char.toLower)

/-- `Slide._convert_to_microstep` (hardware/slide.py), branch for branch.
The source's third test reads `units.upper() == 'MS'` a second time (where
the docstring and the unit whitelist announce 'MM'), so for 'MM' no branch
assigns `nstep` and the final `return nstep` raises `UnboundLocalError`. -/
def convert_to_microstep (amount : ℚ) (units : String) : Except PyErr ℤ :=
  if ¬ (pyUpper units ∈ ["MS", "PX", "MM"]) then
    .error (.slideError "unsupported units: only PX, MM or MS allowed")
  else if pyUpper units = "MS" then
    .ok (pyInt amount)
  else if pyUpper units = "PX" then
    .ok (MIN_MS + pyInt (((MAX_MS : ℚ) - (MIN_MS : ℚ)) * (amount - MIN_PX) / (MAX_PX - MIN_PX) + 1 / 2))
  else if pyUpper units = "MS" then
    -- dead branch: duplicated 'MS' test where the source meant 'MM'
    .ok (MIN_MS + pyInt (((MAX_MS : ℚ) - (MIN_MS : ℚ)) * (amount - MIN_MM) / (MAX_MM - MIN_MM) + 1 / 2))
  else
    .error (.unboundLocalError "nstep")

def UNIT : ℕ := 1

def MOVE_ABSOLUTE : ℕ := 20

def MOVE_RELATIVE : ℕ := 21

/-- `Slide.default_timeout`, set to `MIN_TIMEOUT` in `Slide.__init__`. -/
def default_timeout : ℚ := MIN_TIMEOUT

/-- `struct.pack('<L', n)`: the four little-endian bytes of `n` masked to
32 bits. -/
def encodeCommandData (n : ℤ) : List ℕ :=
  let m := (n % 4294967296).toNat
  [m % 256, m / 256 % 256, m / 65536 % 256, m / 16777216 % 256]

/-- Python truthiness of the optional `timeout` argument (`if not timeout`):
`None` and `0` select the computed default. -/
def timeoutOrElse (t : Option ℚ) (d : ℚ) : ℚ :=
  match t with
  | none => d
  | some x => if x = 0 then d else x

/-- The one `_sendRecv` transaction a move performs: the bytes sent and the
socket timeout passed for the reply. -/
structure SlideTrans where
  bytes : List ℕ
  timeout : ℚ
deriving DecidableEq

/-- `Slide._move_relative` (hardware/slide.py). `start_pos` stands for the
result of the preceding `_getPosition()` transaction. A move-duration
timeout is computed from the caller's argument (`compute_timeout(nstep)`
when the argument is falsy) but the transaction is issued with
`self.default_timeout`, exactly as in the source. -/
def move_relative (start_pos nstep : ℤ) (timeout : Option ℚ) : Except PyErr SlideTrans :=
  let attempt_pos := start_pos + nstep
  if attempt_pos < MIN_MS ∨ attempt_pos > MAX_MS then
    .error (.slideError "Attempting to set position out of range")
  else
    let _ := timeoutOrElse timeout (compute_timeout nstep)
    .ok ⟨UNIT :: MOVE_RELATIVE :: encodeCommandData nstep, default_timeout⟩

/-- `Slide._move_absolute` (hardware/slide.py). `time_absolute(nstep)`
reduces to `compute_timeout(nstep - start_pos)` since converting an integer
amount with units 'ms' is the identity. Unlike `_move_relative`, the
computed-or-supplied timeout is the one passed to `_sendRecv`. -/
def move_absolute (start_pos nstep : ℤ) (timeout : Option ℚ) : Except PyErr SlideTrans :=
  if nstep < MIN_MS ∨ nstep > MAX_MS then
    .error (.slideError "Attempting to set position out of range")
  else
    let t := timeoutOrElse timeout (compute_timeout (nstep - start_pos))
    .ok ⟨UNIT :: MOVE_ABSOLUTE :: encodeCommandData nstep, t⟩

/-!
## hardware/thingsboard/utils.py — telemetry upload (claim C3)
-/

def THINGSBOARD_URL : String := "https://ph1splrasppi2.ddns.shef.ac.uk"

/-- The per-CCD allowed metric list shared by ccd1..ccd5. -/
def ccd_properties : List String :=
  ["temperature", "flow", "pressure", "current", "heatsink", "peltier.status"]

def ALLOWED_PROPERTIES : List (String × List String) :=
  [("ngc", ["flow"]),
   ("rack", ["temperature", "humidity"]),
   ("chiller", ["temperature"]),
   ("slide", ["position"]),
   ("compo", ["injection.angle", "pickoff.angle", "slide.position"]),
   ("ccd1", ccd_properties), ("ccd2", ccd_properties), ("ccd3", ccd_properties),
   ("ccd4", ccd_properties), ("ccd5", ccd_properties)]

def DEVICE_ACCESS_TOKENS : List (String × String) :=
  [("ccd1", "WCFoIo4k8sabbTKc1BRC"),
   ("ccd2", "QSf6FQCuwmyX0jUb4v1e"),
   ("ccd3", "pI8RJk1IClNn98O1NhhP"),
   ("ccd4", "jFfZF2IfhB1n6SIXIFDP"),
   ("ccd5", "KAOB2pRmGjOVhA421wMl"),
   ("ngc", "kOedychrCWKTafS26FA8"),
   ("compo", "WcPuVWxdi14WRiFRkBmT"),
   ("rack", "krW8pzydOnrYOWAfEMnZ"),
   ("chiller", "zqaSv57Kl9L6KA4i9OuQ"),
   ("slide", "d1PSa7DfrPHj7YoUl6BS")]

/-- `upload_telemetry` (hardware/thingsboard/utils.py) up to the point the
HTTP POST is issued: on success it returns the telemetry URL the request
goes to; each raising path returns the exception the source raises there.
The first statement indexes `ALLOWED_PROPERTIES[device]` directly, so an
unrecognised device surfaces as a `KeyError` before the later
`unrecognised device` `ValueError` check (whose key set is identical) can
fire. -/
def upload_telemetry (device : String) (data : List (String × ℚ)) : Except PyErr String :=
  let device₁ := pyLower device
  match dictGet ALLOWED_PROPERTIES device₁ with
  | none => .error (.keyError device₁)
  | some allowed_properties =>
    match data.find? (fun kv => ! allowed_properties.contains kv.1) with
    | some kv =>
      .error (.valueError ("property " ++ kv.1 ++ " is not allowed for device " ++ device₁))
    | none =>
      match dictGet DEVICE_ACCESS_TOKENS device₁ with
      | none => .error (.valueError ("unrecognised device " ++ device₁))
      | some token => .ok (THINGSBOARD_URL ++ "/api/v1/" ++ token ++ "/telemetry")

/-!
## hardware/meerstetter.py — MeCom frames and CRC (claim C4)

Messages are lists of character codes (`crc_calc` consumes `ord(c)`).
-/

/-- One iteration of the loop body of `CRCCalculator._calc_initial`:
updates `(crc, c)` exactly as the source does (no 16-bit masking here,
faithful to the Python). -/
def calc_initial_step : ℕ × ℕ → ℕ × ℕ
  | (crc, c) =>
    ((if (crc ^^^ c) &&& 0x8000 ≠ 0 then (crc <<< 1) ^^^ 0x1021 else crc <<< 1), c <<< 1)

/-- `CRCCalculator._calc_initial(c)`: eight iterations starting from
`crc = 0`, `c << 8`. -/
def calc_initial (c : ℕ) : ℕ :=
  (calc_initial_step^[8] (0, c <<< 8)).1

/-- `CRCCalculator._lut`. -/
def crc_lut : List ℕ := (List.range 256).map calc_initial

/-- `CRCCalculator._update_crc`. The table index `tmp &&& 0xff` is always
below 256, so the `getD` default is never taken. -/
def update_crc (crc c : ℕ) : ℕ :=
  let cc := 0xff &&& c
  let tmp := (crc >>> 8) ^^^ cc
  ((crc <<< 8) ^^^ crc_lut.getD (tmp &&& 0xff) 0) &&& 0xffff

/-- `CRCCalculator.__call__` before hex formatting: fold `_update_crc`
over the character codes starting from the preset 0. -/
def crc_calc (msg : List ℕ) : ℕ := List.foldl update_crc 0 msg

/-- One uppercase-hex digit as a character code ('0'-'9', 'A'-'F'). -/
def toHexDigitChar (n : ℕ) : ℕ := if n < 10 then 48 + n else 55 + n

/-- `format(n, '0>2X')` for `n < 256`, as character codes. -/
def hex2 (n : ℕ) : List ℕ := [toHexDigitChar (n / 16 % 16), toHexDigitChar (n % 16)]

/-- `format(n, '0>4X')` for `n < 65536`, as character codes. -/
def hex4 (n : ℕ) : List ℕ :=
  [toHexDigitChar (n / 4096 % 16), toHexDigitChar (n / 256 % 16),
   toHexDigitChar (n / 16 % 16), toHexDigitChar (n % 16)]

/-- `MeerstetterTEC1090._assemble_frame`: `'#'` (35), two hex digits of
address, four of the sequence number, the payload, four hex digits of the
CRC over everything so far, and `'\r'` (13). -/
def assemble_frame (address seq : ℕ) (payload : List ℕ) : List ℕ :=
  let msg := 35 :: (hex2 address ++ hex4 seq ++ payload)
  msg ++ hex4 (crc_calc msg) ++ [13]

/-- `MeerstetterTEC1090._check_response` as an acceptance predicate:
`true` means the response is accepted, `false` that the source raises.
Slices follow Python: `ret_msg[1:7]`, `ret_msg[-4:]`, `ret_msg[:-4]`,
`frame_msg[-5:-1]`. (`ret_msg[0]` on an empty response would raise
IndexError in Python; the embedding treats that edge as not accepted.) -/
def check_response (frame_msg ret_msg : List ℕ) : Bool :=
  if ret_msg.head? = some 33 ∧ (frame_msg.drop 1).take 6 = (ret_msg.drop 1).take 6 then
    let crc_back := ret_msg.drop (ret_msg.length - 4)
    let crc_out := (frame_msg.drop (frame_msg.length - 5)).take 4
    let package_in := ret_msg.take (ret_msg.length - 4)
    if hex4 (crc_calc package_in) ≠ crc_back ∧ crc_out ≠ crc_back then false else true
  else false

/-- The concrete Meerstetter response used against claim C4: it echoes the
request's address and sequence fields and carries the request frame's CRC
as its own CRC field, which is not the CRC of its own body. -/
def mecomRetC : List ℕ :=
  33 :: (hex2 0 ++ hex4 1 ++ hex4 (crc_calc (35 :: (hex2 0 ++ hex4 1 ++ ([] : List ℕ)))))

/-- A well-formed response to `assemble_frame 2 3 []`: its CRC field is the
CRC of its own body. -/
def mecomRetW : List ℕ :=
  let pk := 33 :: (hex2 2 ++ hex4 3)
  pk ++ hex4 (crc_calc pk)

/-!
## utils/misc.py — ReadServer (claim C7)

The server response is modelled after `json.loads`: `none` stands for a
byte string that fails to decode, `some root` for a decoded JSON object as
an association list. Values are the JSON scalars the embedded code reads.
-/

/-- A decoded JSON value as the embedded code inspects it. -/
inductive JVal where
  | jstr : String → JVal
  | jint : ℤ → JVal
  | jrat : ℚ → JVal
  | jlist : List ℤ → JVal
deriving DecidableEq

/-- The attributes `ReadServer.__init__` sets. `none` in `err`, `run` or
`msg` means the attribute is never assigned on that path; `state` is
`none` when the source assigns Python `None`. -/
structure RSResult where
  ok : Bool
  err : Option String
  state : Option JVal
  run : Option ℤ
  msg : Option JVal
deriving DecidableEq

/-- `ReadServer.__init__` (utils/misc.py). `F` abstracts the run-number
computation (the regex match on `exposure.newDataFileName` plus the
`expStatusName` case split): the source wraps it in
`try/except (ValueError, IndexError, AttributeError)`, so it is a total
function of the file name and status value and cannot raise; every theorem
below holds for all `F`. The source's `sfind is 'ERR'` test is an object
identity comparison that is false for strings produced by `json.loads`,
so the ERR branch is dead and is modelled as such. A non-string
`newDataFileName` would reach `re.match` and raise TypeError. -/
def readServer (F : String → JVal → ℤ) (resp : Option (List (String × JVal)))
    (status_msg : Bool) : Except PyErr RSResult :=
  match resp with
  | none => .ok ⟨false, some "Could not parse JSON response", none, none, none⟩
  | some root =>
    match dictGet root "RETCODE" with
    | none => .ok ⟨false, some "Could not identify status", none, none, none⟩
    | some retcode =>
      if status_msg then
        match dictGet root "system.subStateName" with
        | none => .error (.keyError "system.subStateName")
        | some sfind =>
          match dictGet root "exposure.newDataFileName" with
          | none => .error (.keyError "exposure.newDataFileName")
          | some ndf =>
            match dictGet root "exposure.expStatusName" with
            | none => .error (.keyError "exposure.expStatusName")
            | some es =>
              match ndf with
              | .jstr name => .ok ⟨true, some "", some sfind, some (F name es), none⟩
              | _ => .error (.typeError "expected string or bytes-like object")
      else
        match dictGet root "MESSAGEBUFFER" with
        | none => .error (.keyError "MESSAGEBUFFER")
        | some mb => .ok ⟨decide (retcode = JVal.jstr "OK"), some "", none, some 0, some mb⟩

/-!
## hardware/vacuum.py — PDR900 (claim C8)
-/

/-- A piece of one of the ASCII message templates: literal text or a
`{field}` placeholder. -/
inductive Piece where
  | lit : String → Piece
  | field : String → Piece

/-- `DOWNLOAD = '@{addr}DL{comm};FF'`. -/
def DOWNLOAD : List Piece := [.lit "@", .field "addr", .lit "DL", .field "comm", .lit ";FF"]

/-- Python `message.format(**data)`: substitutes each placeholder from the
mapping, raising `KeyError` on a placeholder the mapping lacks. -/
def pyFormat (template : List Piece) (data : List (String × String)) : Except PyErr String :=
  match template with
  | [] => .ok ""
  | .lit s :: rest => (pyFormat rest data).map (fun r => s ++ r)
  | .field f :: rest =>
    match dictGet data f with
    | none => .error (.keyError f)
    | some v => (pyFormat rest data).map (fun r => v ++ r)

/-- One parsed row of the datalogger table: the TIME column already split
into hours/minutes/seconds (the `split(':')`/`float` step of the source is
folded into the row model, since every execution of `get_log_data` fails
before a table is ever produced) and the 'MB TORR' column. -/
structure LogRow where
  h : ℚ
  m : ℚ
  s : ℚ
  mbtorr : ℚ
deriving DecidableEq

/-- `PDR900.get_log_data` (hardware/vacuum.py): formats the DOWNLOAD
message with `dict(add=self.address, comm='?')` — the source spells the
`addr` key `add` — and hands the formatted message to the transport
(`_send_recv` plus `ascii.read`, abstracted as `sendRecv`). -/
def get_log_data (sendRecv : String → List LogRow) (address : String) :
    Except PyErr (List LogRow) :=
  (pyFormat DOWNLOAD [("add", address), ("comm", "?")]).map sendRecv

/-- `PDR900.get_latest` (hardware/vacuum.py): last row of the downloaded
table, its elapsed time added to `logging_start_time`, compared against
`now` (`age = logging_start_time + dt - now`, the source's operand order),
stale when `age > 10 min`, otherwise the 'MB TORR' value. -/
def get_latest (sendRecv : String → List LogRow) (address : String)
    (logging_start_time now : ℚ) : Except PyErr ℚ := do
  let data ← get_log_data sendRecv address
  match data.getLast? with
  | none => .error (.indexError "index -1 is out of bounds")
  | some last_row =>
    let dt := 3600 * last_row.h + 60 * last_row.m + last_row.s
    let age := logging_start_time + dt - now
    if age > 600 then .error (.vacuumGaugeError "latest data is older than 10 minutes")
    else .ok last_row.mbtorr

/-!
## utils/web.py — decode_timestamp (claim C9)

Byte strings are lists of byte values; the `struct` pack/unpack idioms the
codec uses become the chunked conversions below.
-/

/-- `struct.pack('<I', w)` for `w < 2^32`: four little-endian bytes. -/
def packLE32 (w : ℕ) : List ℕ :=
  [w % 256, w / 256 % 256, w / 65536 % 256, w / 16777216 % 256]

/-- `struct.unpack('<' + 'H'*k, bytes)`: consecutive little-endian byte
pairs as unsigned 16-bit values. -/
def bytesToU16LE : List ℕ → List ℕ
  | b₀ :: b₁ :: rest => (b₀ + 256 * b₁) :: bytesToU16LE rest
  | _ => []

/-- `struct.unpack('>' + 'h'*k, bytes)`: consecutive big-endian byte pairs
as signed 16-bit values. -/
def bytesToI16BE : List ℕ → List ℤ
  | c₀ :: c₁ :: rest =>
    (if 32768 ≤ 256 * c₀ + c₁ then (256 * (c₀ : ℤ) + c₁) - 65536 else 256 * (c₀ : ℤ) + c₁)
      :: bytesToI16BE rest
  | _ => []

/-- `struct.pack('>h', s)` for `s ∈ [-32768, 32767]`: the two big-endian
bytes of the two's-complement 16-bit encoding. -/
def i16ToBytesBE (s : ℤ) : List ℕ :=
  let u := ((s + 65536) % 65536).toNat
  [u / 256, u % 256]

/-- `struct.pack('<H', v)` for `v < 65536`: two little-endian bytes. -/
def u16ToBytesLE (v : ℕ) : List ℕ := [v % 256, v / 256]

/-- `struct.pack('<' + 'H'*k, ...)`: concatenated little-endian pairs. -/
def packU16sLE : List ℕ → List ℕ
  | [] => []
  | v :: rest => u16ToBytesLE v ++ packU16sLE rest

/-- `struct.pack('>' + 'h'*k, ...)`: concatenated big-endian signed pairs. -/
def packI16sBE : List ℤ → List ℕ
  | [] => []
  | s :: rest => i16ToBytesBE s ++ packI16sBE rest

/-- `struct.pack('<' + 'I'*k, ...)`: concatenated little-endian words. -/
def packU32sLE : List ℕ → List ℕ
  | [] => []
  | w :: rest => packLE32 w ++ packU32sLE rest

/-- `struct.unpack('<' + 'I'*k, bytes)`: consecutive little-endian 4-byte
groups as unsigned 32-bit values. -/
def bytesToU32LE : List ℕ → List ℕ
  | b₀ :: b₁ :: b₂ :: b₃ :: rest =>
    (b₀ + 256 * b₁ + 65536 * b₂ + 16777216 * b₃) :: bytesToU32LE rest
  | _ => []

/-- `decode_timestamp` (utils/web.py): decode big-endian int16 values, add
32768 to each, re-pack as little-endian uint16, then read little-endian
uint32 words. -/
def decode_timestamp (ts_bytes : List ℕ) : List ℕ :=
  bytesToU32LE (packU16sLE ((bytesToI16BE ts_bytes).map (fun s => (s + 32768).toNat)))

/-- The forward FITS mangling of the timestamp words, as the
`decode_timestamp` docstring and §4.20 describe it: pack each 32-bit word
little-endian, read the bytes as little-endian uint16 values, subtract
32768 from each, and store the results as big-endian int16 values. -/
def fits_mangle (ts : List ℕ) : List ℕ :=
  packI16sBE ((bytesToU16LE (packU32sLE ts)).map (fun (v : ℕ) => (v : ℤ) - 32768))

/-!
## utils/hcam.py — InstPars.dumpJSON / InstPars.loadJSON (claim C2)

The live widget state, with the per-window entry arrays modelled as pairs
(index 1 and index 2); `npair`/`nquad` say how many of them are enabled and
drive the window iteration of `dumpJSON`.
-/

/-- The instrument-panel state `dumpJSON` reads and `loadJSON` writes. -/
structure InstState where
  app : String
  numexp : ℤ
  led : ℤ
  dummy : ℤ
  readSpeed : String
  expose : ℚ
  oscan : ℤ
  oscany : ℤ
  xbin : ℤ
  ybin : ℤ
  nmult : List ℤ
  clear : ℤ
  npair : ℕ
  nquad : ℕ
  xsl : ℤ × ℤ
  xsr : ℤ × ℤ
  xsll : ℤ × ℤ
  xsul : ℤ × ℤ
  xslr : ℤ × ℤ
  xsur : ℤ × ℤ
  ys : ℤ × ℤ
  nx : ℤ × ℤ
  ny : ℤ × ℤ

/-- The drift-mode window keys `dumpJSON` writes for pair `iw+1` — note the
`y1start` spelling, with no underscore. -/
def dumpDriftPair (ssl ssr ys ny nx : ℤ) (tag : String) : List (String × JVal) :=
  [("x" ++ tag ++ "start_left", .jint ssl),
   ("x" ++ tag ++ "start_right", .jint ssr),
   ("y" ++ tag ++ "start", .jint ys),
   ("y" ++ tag ++ "size", .jint ny),
   ("x" ++ tag ++ "size", .jint nx)]

/-- The windows-mode quad keys `dumpJSON` writes for quad `iw+1`. -/
def dumpQuad (xsul xsll xsur xslr ys nx ny : ℤ) (tag : String) : List (String × JVal) :=
  [("x" ++ tag ++ "start_upperleft", .jint xsul),
   ("x" ++ tag ++ "start_lowerleft", .jint xsll),
   ("x" ++ tag ++ "start_upperright", .jint xsur),
   ("x" ++ tag ++ "start_lowerright", .jint xslr),
   ("y" ++ tag ++ "start", .jint ys),
   ("x" ++ tag ++ "size", .jint nx),
   ("y" ++ tag ++ "size", .jint ny)]

/-- `InstPars.dumpJSON` (utils/hcam.py). `expTime` stands for the
`timing()` result stored under `exptime`; `loadJSON` never reads it, so it
is passed in rather than re-derived. An application name outside
FullFrame/Windows/Drift makes `isFF()` raise `DriverError`. -/
def dumpJSON (expTime : ℚ) (s : InstState) : Except PyErr (List (String × JVal)) :=
  if s.app ≠ "FullFrame" ∧ s.app ≠ "Windows" ∧ s.app ≠ "Drift" then
    .error (.driverError "application not recognised")
  else
    .ok ([("numexp", .jint s.numexp),
          ("app", .jstr s.app),
          ("led_flsh", .jint s.led),
          ("dummy_out", .jint s.dummy),
          ("readout", .jstr s.readSpeed),
          ("dwell", .jrat s.expose),
          ("exptime", .jrat expTime),
          ("oscan", .jint s.oscan),
          ("oscany", .jint s.oscany),
          ("xbin", .jint s.xbin),
          ("ybin", .jint s.ybin),
          ("multipliers", .jlist s.nmult),
          ("clear", .jint s.clear)] ++
      (if s.app = "FullFrame" then []
       else if s.app = "Drift" then
         dumpDriftPair s.xsl.1 s.xsr.1 s.ys.1 s.ny.1 s.nx.1 "1" ++
           (if 2 ≤ s.npair then dumpDriftPair s.xsl.2 s.xsr.2 s.ys.2 s.ny.2 s.nx.2 "2" else [])
       else
         dumpQuad s.xsul.1 s.xsll.1 s.xsur.1 s.xslr.1 s.ys.1 s.nx.1 s.ny.1 "1" ++
           (if 2 ≤ s.nquad then dumpQuad s.xsul.2 s.xsll.2 s.xsur.2 s.xslr.2 s.ys.2 s.nx.2 s.ny.2 "2" else [])))

/-- A JSON value stored into an integer-valued widget variable. The
document format fixes these fields to be integers; other shapes are
outside the modelled envelope. -/
def asInt (v : JVal) : ℤ :=
  match v with
  | .jint n => n
  | _ => 0

/-- `data.get(key, dflt)` for an integer field. -/
def getInt (data : List (String × JVal)) (key : String) (dflt : ℤ) : ℤ :=
  match dictGet data key with
  | some v => asInt v
  | none => dflt

/-- `data.get(key, dflt)` for a numeric field read through `float()`. -/
def getRat (data : List (String × JVal)) (key : String) (dflt : ℚ) : ℚ :=
  match dictGet data key with
  | some (.jrat q) => q
  | some (.jint n) => (n : ℚ)
  | some _ => dflt
  | none => dflt

/-- `data.get(key, dflt)` for a string field. -/
def getStr (data : List (String × JVal)) (key : String) (dflt : String) : String :=
  match dictGet data key with
  | some (.jstr t) => t
  | _ => dflt

/-- `data.get('multipliers', (1,1,1,1,1))`. -/
def getMult (data : List (String × JVal)) : List ℤ :=
  match dictGet data "multipliers" with
  | some (.jlist l) => l
  | _ => [1, 1, 1, 1, 1]

/-- Whether `key in data`. -/
def hasKey (data : List (String × JVal)) (key : String) : Bool :=
  (dictGet data key).isSome

/-- `InstPars.loadJSON` (utils/hcam.py) on the `appdata` object, statement
for statement. In particular: a present `oscany` value is stored into the
`oscan` widget (`self.oscan.set(data['oscany'])` in the source), and the
drift branch demands the key `y1_start` — with an underscore — before it
sets the pair, raising `DriverError` when any required label is absent. -/
def loadJSON (s₀ : InstState) (data : List (String × JVal)) : Except PyErr InstState :=
  let numexp₀ := getInt data "numexp" 0
  let numexp := if numexp₀ = -1 then 0 else numexp₀
  let s := { s₀ with numexp := numexp }
  let s := match dictGet data "oscan" with
    | some v => { s with oscan := asInt v }
    | none => s
  let s := match dictGet data "oscany" with
    | some v => { s with oscan := asInt v }
    | none => s
  let s := { s with
    led := getInt data "led_flsh" 0,
    dummy := getInt data "dummy_out" 0,
    readSpeed := getStr data "readout" "Slow",
    expose := getRat data "dwell" 0,
    xbin := getInt data "xbin" 1,
    ybin := getInt data "ybin" 1,
    nmult := getMult data }
  match dictGet data "app" with
  | none => .ok s
  | some av =>
    let app := match av with | .jstr t => t | _ => s.app
    let s := { s with app := app }
    if app = "Drift" then
      let s := { s with clear := 0, npair := 1 }
      if hasKey data "x1start_left" && hasKey data "y1_start" && hasKey data "x1start_right"
          && hasKey data "x1size" && hasKey data "y1size" then
        .ok { s with
          xsl := (getInt data "x1start_left" 0, s.xsl.2),
          xsr := (getInt data "x1start_right" 0, s.xsr.2),
          ys := (getInt data "y1_start" 0, s.ys.2),
          nx := (getInt data "x1size" 0, s.nx.2),
          ny := (getInt data "y1size" 0, s.ny.2) }
      else
        .error (.driverError "Drift mode application missing window params")
    else if app = "FullFrame" then
      .ok { s with clear := getInt data "clear" 0 }
    else if app = "Windows" then
      let s := { s with clear := getInt data "clear" 0 }
      if hasKey data "x1start_lowerleft" && hasKey data "y1start" && hasKey data "x1start_upperleft"
          && hasKey data "x1start_upperright" && hasKey data "x1start_lowerright"
          && hasKey data "x1size" && hasKey data "y1size" then
        let s := { s with
          xsll := (getInt data "x1start_lowerleft" 0, s.xsll.2),
          xslr := (getInt data "x1start_lowerright" 0, s.xslr.2),
          xsul := (getInt data "x1start_upperleft" 0, s.xsul.2),
          xsur := (getInt data "x1start_upperright" 0, s.xsur.2),
          ys := (getInt data "y1start" 0, s.ys.2),
          nx := (getInt data "x1size" 0, s.nx.2),
          ny := (getInt data "y1size" 0, s.ny.2) }
        if hasKey data "x2start_lowerleft" && hasKey data "y2start" && hasKey data "x2start_upperleft"
            && hasKey data "x2start_upperright" && hasKey data "x2start_lowerright"
            && hasKey data "x2size" && hasKey data "y2size" then
          .ok { s with
            xsll := (s.xsll.1, getInt data "x2start_lowerleft" 0),
            xslr := (s.xslr.1, getInt data "x2start_lowerright" 0),
            xsul := (s.xsul.1, getInt data "x2start_upperleft" 0),
            xsur := (s.xsur.1, getInt data "x2start_upperright" 0),
            ys := (s.ys.1, getInt data "y2start" 0),
            nx := (s.nx.1, getInt data "x2size" 0),
            ny := (s.ny.1, getInt data "y2size" 0),
            nquad := 2 }
        else
          .ok { s with nquad := 1 }
      else
        .ok { s with nquad := 0 }
    else
      .ok s

/-- A neutral pre-load widget state for the round-trip evaluations. -/
def instStateBase : InstState :=
  { app := "FullFrame", numexp := 1, led := 0, dummy := 0, readSpeed := "Slow",
    expose := 0, oscan := 0, oscany := 0, xbin := 1, ybin := 1,
    nmult := [1, 1, 1, 1, 1], clear := 0, npair := 1, nquad := 1,
    xsl := (1, 1), xsr := (1025, 1025), xsll := (1, 1), xsul := (1, 1),
    xslr := (1025, 1025), xsur := (1025, 1025), ys := (1, 1),
    nx := (100, 100), ny := (100, 100) }

/-- A valid drift-mode state (one pair, clear disabled). -/
def instStateDrift : InstState :=
  { instStateBase with
    app := "Drift",
    npair := 1,
    clear := 0,
    xsl := (100, 1),
    xsr := (600, 1025),
    ys := (50, 1),
    nx := (200, 100),
    ny := (80, 100) }

/-- A valid full-frame state whose x-overscan flag is on while the
y-overscan flag is off. -/
def instStateFF : InstState :=
  { instStateBase with
    app := "FullFrame",
    oscan := 1,
    oscany := 0,
    clear := 1 }

/-!
## Theorems
-/

/-- C1: evaluation of the `process_update` flag logic at its failing
inputs. With no error and a finite value of 20 outside the bounds (0, 10)
the source sets `ok` to true (the `np.isfinite` branch), and with no error
and the NaN "monitoring disabled" sentinel it sets `ok` to false — the
exact opposite of the claimed (and commented) behaviour in both cases. -/
theorem c1_process_update_code_eval :
    process_update_ok (.val 20) none 0 10 = true ∧
    process_update_ok .nan none 0 10 = false := by
  exact ⟨rfl, rfl⟩

/-- C2: the dump/load round trip fails. Loading the dump of a valid
drift-mode state raises `DriverError` (the dump writes the key `y1start`,
the loader requires `y1_start`), and loading the dump of a full-frame
state with `oscan = 1`, `oscany = 0` restores `oscan = 0` (the loader
stores the dumped `oscany` value into the `oscan` flag). -/
theorem c2_roundtrip_fails :
    (dumpJSON 0 instStateDrift).bind (loadJSON instStateBase) =
      .error (.driverError "Drift mode application missing window params") ∧
    ((dumpJSON 0 instStateFF).bind (loadJSON instStateBase)).map InstState.oscan =
      Except.ok 0 ∧
    instStateFF.oscan = 1 := by
  exact ⟨rfl, rfl, rfl⟩

/-- C5: converting any amount with units 'MM' raises `UnboundLocalError`
(the source's third branch re-tests 'MS' instead of 'MM', so `nstep` is
never assigned), while a unit outside the whitelist raises `SlideError`. -/
theorem c5_convert_mm_unbound :
    (∀ amount : ℚ,
      convert_to_microstep amount "MM" = .error (.unboundLocalError "nstep")) ∧
    convert_to_microstep 100 "FT" =
      .error (.slideError "unsupported units: only PX, MM or MS allowed") := by
  refine ⟨fun amount => rfl, rfl⟩

/-- C8: `get_latest` never reaches the staleness check or returns a
pressure: formatting the DOWNLOAD message raises `KeyError('addr')`
because `get_log_data` builds its mapping with the key `add`. -/
theorem c8_get_latest_always_keyerror :
    ∀ (sendRecv : String → List LogRow) (address : String)
      (logging_start_time now : ℚ),
      get_latest sendRecv address logging_start_time now =
        .error (.keyError "addr") := by
  intro sendRecv address logging_start_time now
  rfl

/-- C10: every successful `_move_relative` transaction is issued with the
fixed `default_timeout` (5 s), whatever timeout was supplied or computed,
while `_move_absolute` passes the supplied-or-computed timeout through. -/
theorem c10_move_timeouts :
    (∀ (start_pos nstep : ℤ) (t : Option ℚ) (tr : SlideTrans),
      move_relative start_pos nstep t = .ok tr → tr.timeout = default_timeout) ∧
    (∀ (start_pos nstep : ℤ) (t : Option ℚ) (tr : SlideTrans),
      move_absolute start_pos nstep t = .ok tr →
        tr.timeout = timeoutOrElse t (compute_timeout (nstep - start_pos))) := by
  constructor
  · intro start_pos nstep t tr h
    simp only [move_relative] at h
    split_ifs at h
    cases h
    rfl
  · intro start_pos nstep t tr h
    simp only [move_absolute] at h
    split_ifs at h
    cases h
    rfl

/-- C7 counterexample: a decoded JSON object carrying `RETCODE` but no
`MESSAGEBUFFER` makes `ReadServer.__init__` raise `KeyError` instead of
returning a non-ok result, refuting "the parser never raises". -/
theorem c7_counterexample :
    readServer (fun _ _ => 0) (some [("RETCODE", JVal.jstr "OK")]) false =
      .error (.keyError "MESSAGEBUFFER") := by
  rfl

/-- C7 amended: malformed JSON and a missing `RETCODE` give a non-ok
result with a diagnostic message, but once `RETCODE` is present the later
required fields are read with raw lookups, so a missing `MESSAGEBUFFER`
(status not requested) or a missing `system.subStateName` /
`exposure.newDataFileName` / `exposure.expStatusName` (status requested)
raises `KeyError`. With the fields present the constructor returns a
result instead of raising in both modes, with one exception: when status
is requested and the present `exposure.newDataFileName` is not a string,
`re.match` raises an uncaught `TypeError`. -/
theorem c7_readserver_amended (F : String → JVal → ℤ) (sm : Bool)
    (root : List (String × JVal)) :
    readServer F none sm =
      .ok ⟨false, some "Could not parse JSON response", none, none, none⟩ ∧
    (dictGet root "RETCODE" = none →
      readServer F (some root) sm =
        .ok ⟨false, some "Could not identify status", none, none, none⟩) ∧
    (∀ rv, dictGet root "RETCODE" = some rv →
      dictGet root "MESSAGEBUFFER" = none →
      readServer F (some root) false = .error (.keyError "MESSAGEBUFFER")) ∧
    (∀ rv mb, dictGet root "RETCODE" = some rv →
      dictGet root "MESSAGEBUFFER" = some mb →
      readServer F (some root) false =
        .ok ⟨decide (rv = JVal.jstr "OK"), some "", none, some 0, some mb⟩) ∧
    (∀ rv, dictGet root "RETCODE" = some rv →
      dictGet root "system.subStateName" = none →
      readServer F (some root) true = .error (.keyError "system.subStateName")) ∧
    (∀ rv sv, dictGet root "RETCODE" = some rv →
      dictGet root "system.subStateName" = some sv →
      dictGet root "exposure.newDataFileName" = none →
      readServer F (some root) true =
        .error (.keyError "exposure.newDataFileName")) ∧
    (∀ rv sv nv, dictGet root "RETCODE" = some rv →
      dictGet root "system.subStateName" = some sv →
      dictGet root "exposure.newDataFileName" = some nv →
      dictGet root "exposure.expStatusName" = none →
      readServer F (some root) true =
        .error (.keyError "exposure.expStatusName")) ∧
    (∀ rv sv nm es, dictGet root "RETCODE" = some rv →
      dictGet root "system.subStateName" = some sv →
      dictGet root "exposure.newDataFileName" = some (JVal.jstr nm) →
      dictGet root "exposure.expStatusName" = some es →
      readServer F (some root) true =
        .ok ⟨true, some "", some sv, some (F nm es), none⟩) ∧
    (∀ rv sv nv es, dictGet root "RETCODE" = some rv →
      dictGet root "system.subStateName" = some sv →
      dictGet root "exposure.newDataFileName" = some nv →
      dictGet root "exposure.expStatusName" = some es →
      (∀ t, nv ≠ JVal.jstr t) →
      readServer F (some root) true =
        .error (.typeError "expected string or bytes-like object")) := by
  refine ⟨rfl, ?_, ?_, ?_, ?_, ?_, ?_, ?_, ?_⟩
  · intro h; simp [readServer, h]
  · intro rv h hm; simp [readServer, h, hm]
  · intro rv mb h hm; simp [readServer, h, hm]
  · intro rv h hs; simp [readServer, h, hs]
  · intro rv sv h hs hn; simp [readServer, h, hs, hn]
  · intro rv sv nv h hs hn he; simp [readServer, h, hs, hn, he]
  · intro rv sv nm es h hs hn he; simp [readServer, h, hs, hn, he]
  · intro rv sv nv es h hs hn he hnot
    cases nv with
    | jstr t => exact absurd rfl (hnot t)
    | jint i => simp [readServer, h, hs, hn, he]
    | jrat q => simp [readServer, h, hs, hn, he]
    | jlist l => simp [readServer, h, hs, hn, he]

/-- Every device with an allowed-properties entry also has an access
token: the two tables have the same ten keys, which is what makes the
source's `unrecognised device` `ValueError` branch unreachable. -/
theorem tokens_cover (d : String) (ps : List String)
    (h : dictGet ALLOWED_PROPERTIES d = some ps) :
    ∃ tok, dictGet DEVICE_ACCESS_TOKENS d = some tok := by
  simp only [ALLOWED_PROPERTIES, dictGet] at h
  split_ifs at h <;> (subst_vars; exact ⟨_, rfl⟩)

/-- C3: `upload_telemetry` fails, synchronously and before any HTTP
request is prepared, exactly when the (lowercased) device has no
allowed-properties entry or some key of the data is not in the device's
allowed set; in particular the three concrete probes of the claim behave
as stated (the unknown-device failure surfaces as the `KeyError` of the
`ALLOWED_PROPERTIES` lookup). -/
theorem c3_upload_telemetry_validation :
    (∀ (device : String) (data : List (String × ℚ)),
      exceptOk (upload_telemetry device data) = true ↔
        ∃ allowed, dictGet ALLOWED_PROPERTIES (pyLower device) = some allowed ∧
          ∀ kv ∈ data, kv.1 ∈ allowed) ∧
    exceptOk (upload_telemetry "ccd1" [("current", (5 : ℚ))]) = true ∧
    upload_telemetry "ccd1" [("humidity", (5 : ℚ))] =
      .error (.valueError "property humidity is not allowed for device ccd1") ∧
    upload_telemetry "unknown_device" [] = .error (.keyError "unknown_device") := by
  refine ⟨?_, rfl, rfl, rfl⟩
  intro device data
  cases h : dictGet ALLOWED_PROPERTIES (pyLower device) with
  | none =>
    simp [upload_telemetry, h, exceptOk]
  | some allowed =>
    cases hf : data.find? (fun kv => ! allowed.contains kv.1) with
    | none =>
      obtain ⟨tok, htok⟩ := tokens_cover _ _ h
      simp only [upload_telemetry, h, hf, htok, exceptOk]
      constructor
      · intro _
        refine ⟨allowed, rfl, fun kv hkv => ?_⟩
        have := List.find?_eq_none.mp hf kv hkv
        simpa using this
      · intro _
        trivial
    | some kv =>
      have hp := List.find?_some hf
      have hmem := List.mem_of_find?_eq_some hf
      simp only [upload_telemetry, h, hf, exceptOk]
      constructor
      · intro hfalse
        exact absurd hfalse (by simp)
      · rintro ⟨allowed₁, ha₁, hall⟩
        cases ha₁
        have hin := hall kv hmem
        simp only [Bool.not_eq_true'] at hp
        simp at hp
        exact absurd hin hp

/-- Characters 1..6 of an assembled frame are the address and sequence
hex fields. -/
theorem assemble_slice_head (a q : ℕ) (p : List ℕ) :
    ((assemble_frame a q p).drop 1).take 6 = hex2 a ++ hex4 q := rfl

/-- An assembled frame is the 7-character header, the payload, four CRC
digits and the carriage return. -/
theorem assemble_length (a q : ℕ) (p : List ℕ) :
    (assemble_frame a q p).length = p.length + 12 := by
  simp [assemble_frame, hex2, hex4]

/-- `frame_msg[-5:-1]` of an assembled frame is the hex CRC over the frame
body. -/
theorem assemble_crc_slice (a q : ℕ) (p : List ℕ) :
    ((assemble_frame a q p).drop ((assemble_frame a q p).length - 5)).take 4 =
      hex4 (crc_calc (35 :: (hex2 a ++ hex4 q ++ p))) := by
  rw [assemble_length]
  simp only [assemble_frame]
  rw [List.append_assoc]
  rw [List.drop_left' (by simp [hex2, hex4])]
  exact List.take_left' (by simp [hex4])

/-- C4 counterexample: the response `mecomRetC` echoes the request's
fields and carries the request frame's CRC; its own CRC is inconsistent
(second conjunct), yet `_check_response` accepts it, because the source
rejects only when both the recomputed CRC and the request's CRC disagree
with the carried one. -/
theorem c4_counterexample :
    check_response (assemble_frame 0 1 []) mecomRetC = true ∧
    hex4 (crc_calc (mecomRetC.take (mecomRetC.length - 4))) ≠
      mecomRetC.drop (mecomRetC.length - 4) := by
  constructor
  · decide
  · decide

/-- C4 amended: a response to an assembled frame is accepted iff it starts
with `'!'`, its address/sequence characters equal the request's, and its
carried CRC field equals either the CRC recomputed over its own body or
the request frame's CRC field — so a response whose own CRC is
inconsistent is still accepted whenever it matches the request's CRC. -/
theorem c4_check_response_amended (address seq : ℕ) (payload ret_msg : List ℕ)
    (ha : address < 256) (hs : seq < 65536) :
    check_response (assemble_frame address seq payload) ret_msg = true ↔
      (ret_msg.head? = some 33 ∧
       (ret_msg.drop 1).take 6 = hex2 address ++ hex4 seq ∧
       (hex4 (crc_calc (ret_msg.take (ret_msg.length - 4))) =
          ret_msg.drop (ret_msg.length - 4) ∨
        hex4 (crc_calc (35 :: (hex2 address ++ hex4 seq ++ payload))) =
          ret_msg.drop (ret_msg.length - 4))) := by
  have hmain : check_response (assemble_frame address seq payload) ret_msg = true ↔
      ((ret_msg.head? = some 33 ∧
        hex2 address ++ hex4 seq = (ret_msg.drop 1).take 6) ∧
       ¬(hex4 (crc_calc (ret_msg.take (ret_msg.length - 4))) ≠
           ret_msg.drop (ret_msg.length - 4) ∧
         hex4 (crc_calc (35 :: (hex2 address ++ hex4 seq ++ payload))) ≠
           ret_msg.drop (ret_msg.length - 4))) := by
    simp only [check_response, assemble_slice_head, assemble_crc_slice]
    split_ifs with h₁ h₂ <;> simp_all
  rw [hmain]
  constructor
  · rintro ⟨⟨hh, hsl⟩, hcrc⟩
    refine ⟨hh, hsl.symm, ?_⟩
    rcases not_and_or.mp hcrc with hC | hD
    · exact Or.inl (not_not.mp hC)
    · exact Or.inr (not_not.mp hD)
  · rintro ⟨hh, hsl, hor⟩
    refine ⟨⟨hh, hsl.symm⟩, ?_⟩
    rintro ⟨hA, hB⟩
    rcases hor with hc | hc
    · exact hA hc
    · exact hB hc

/-- C4 witness: a well-formed response (self-consistent CRC) to the frame
for address 2, sequence 3 is accepted, via the amended characterisation. -/
theorem c4_check_response_witness :
    check_response (assemble_frame 2 3 []) mecomRetW = true :=
  (c4_check_response_amended 2 3 [] mecomRetW (by decide) (by decide)).mpr (by decide)

/-- Closed form of `compute_timeout`: the piecewise time estimate (the
acceleration cutoff `nacc` evaluates to 46 steps, and the second branch's
constant part to 0.1679 s) plus 2 s, clamped through `max`/`min`. -/
theorem compute_timeout_eq (n : ℤ) :
    compute_timeout n =
      min (max ((if ((|n| : ℤ) : ℚ) / 64 < 46 then
            (48 / 10000 - 5 / 100000 * (((|n| : ℤ) : ℚ) / 64) / 2) * (((|n| : ℤ) : ℚ) / 64)
          else 1679 / 10000 + 25 / 10000 * (((|n| : ℤ) : ℚ) / 64 - 46)) + 2) 5) 70 := by
  unfold compute_timeout
  simp only [MAX_STEP_TIME, MIN_STEP_TIME, STEP_TIME_ACCN, MS_PER_STEP, MIN_TIMEOUT,
    MAX_TIMEOUT]
  norm_num [min_def, max_def]
  split_ifs <;> first | ring1 | linarith

/-- C6 counterexample: moving the full microstep range gives a timeout of
67.0529 s, not the claimed 70 s (the 70-second clamp is not reached). -/
theorem c6_counterexample : compute_timeout 1664000 ≠ 70 := by
  rw [compute_timeout_eq]
  norm_num

/-- C6 amended: `compute_timeout` is non-decreasing in `|nmicrostep|`
everywhere (so in particular up to the upper clamp), always lies in the
clamp interval [5 s, 70 s], equals 5 at 0 microsteps, and equals
67.0529 s — not 70 s — at the full range of 1664000 microsteps. -/
theorem c6_compute_timeout_amended :
    (∀ n₁ n₂ : ℤ, |n₁| ≤ |n₂| → compute_timeout n₁ ≤ compute_timeout n₂) ∧
    (∀ n : ℤ, 5 ≤ compute_timeout n ∧ compute_timeout n ≤ 70) ∧
    compute_timeout 0 = 5 ∧
    compute_timeout 1664000 = 670529 / 10000 := by
  refine ⟨?_, ?_, ?_, ?_⟩
  · intro n₁ n₂ h
    rw [compute_timeout_eq, compute_timeout_eq]
    have h₁ : (0 : ℚ) ≤ ((|n₁| : ℤ) : ℚ) / 64 := by positivity
    have h₂ : ((|n₁| : ℤ) : ℚ) / 64 ≤ ((|n₂| : ℤ) : ℚ) / 64 := by
      have hc : ((|n₁| : ℤ) : ℚ) ≤ ((|n₂| : ℤ) : ℚ) := by exact_mod_cast h
      linarith
    set s₁ := ((|n₁| : ℤ) : ℚ) / 64 with hs₁
    set s₂ := ((|n₂| : ℤ) : ℚ) / 64 with hs₂
    refine min_le_min ?_ le_rfl
    refine max_le_max ?_ le_rfl
    have hest : (if s₁ < 46 then (48 / 10000 - 5 / 100000 * s₁ / 2) * s₁
          else 1679 / 10000 + 25 / 10000 * (s₁ - 46)) ≤
        (if s₂ < 46 then (48 / 10000 - 5 / 100000 * s₂ / 2) * s₂
          else 1679 / 10000 + 25 / 10000 * (s₂ - 46)) := by
      split_ifs with hc₁ hc₂ hc₂
      · nlinarith [mul_nonneg (sub_nonneg.mpr h₂)
          (by linarith : (0 : ℚ) ≤ 92 - (s₁ + s₂))]
      · nlinarith [mul_nonneg (by linarith : (0 : ℚ) ≤ 46 - s₁)
          (by linarith : (0 : ℚ) ≤ 146 - s₁)]
      · linarith
      · linarith
    linarith [hest]
  · intro n
    rw [compute_timeout_eq]
    exact ⟨le_min (le_max_right _ _) (by norm_num), min_le_right _ _⟩
  · rw [compute_timeout_eq]
    norm_num
  · rw [compute_timeout_eq]
    norm_num

/-- C9: decoding inverts the forward FITS mangling on every list of
32-bit words — in particular on every 8-tuple of 32-bit unsigned
integers. -/
theorem c9_decode_timestamp_roundtrip :
    ∀ ts : List ℕ, (∀ w ∈ ts, w < 4294967296) →
      decode_timestamp (fits_mangle ts) = ts := by
  intro ts
  induction ts with
  | nil => intro _; rfl
  | cons w rest ih =>
    intro hw
    have hwlt : w < 4294967296 := hw w (List.mem_cons_self _ _)
    have htail : decode_timestamp (fits_mangle rest) = rest :=
      ih (fun x hx => hw x (List.mem_cons_of_mem _ hx))
    simp only [fits_mangle, decode_timestamp, packU32sLE, packLE32, List.map_cons,
      List.cons_append, List.nil_append, List.append_nil, List.append_eq, bytesToU16LE,
      packI16sBE, i16ToBytesBE, bytesToI16BE, u16ToBytesLE, packU16sLE,
      bytesToU32LE] at htail ⊢
    rw [htail]
    simp only [List.cons.injEq, and_true]
    split_ifs <;> omega

/-- C9 witness: the concrete 8-tuple of the claim survives the mangling
round trip. -/
theorem c9_decode_timestamp_witness :
    decode_timestamp (fits_mangle [1, 2, 2024, 45, 10, 30, 15, 123456]) =
      [1, 2, 2024, 45, 10, 30, 15, 123456] :=
  c9_decode_timestamp_roundtrip [1, 2, 2024, 45, 10, 30, 15, 123456] (by decide)
